import Mathlib

/-!
Shallow embedding of pyBackup.2.0.py: a configuration-driven wrapper that
iterates (source, destination) backup pairs, invokes the external tool
rclone once per pair as a child process, and streams the child output into
a logger.  Pure configuration data, the logging handler bookkeeping of the
CPython logging module, and the orchestration functions setup_logging,
console_output, rclone_sync and main are translated here as executable
Lean functions; the child process and the filesystem are parameters of the
model (a ProcResult environment per pair, a writability flag for the log
path).  Wall-clock time and the byte-level rotation of log files are not
modelled; log records are (level, message) pairs.
-/

namespace PyBackup

/-- Log severity levels used by the script (logging.DEBUG / INFO / ERROR). -/
inductive LogLevel
  | debug
  | info
  | error
deriving DecidableEq, Repr

/-- One log record: severity and formatted message.  The timestamp prefix added
by the formatter is not modelled. -/
structure LogRecord where
  level : LogLevel
  msg : String
deriving DecidableEq, Repr

/-- HOME_DIR constant of the script. -/
def HOME_DIR : String := "/home/siskourso/"

/-- BACKUP_LOCATIONS dict of the script, as an association list in insertion
order (Python 3.7+ dicts iterate in insertion order). -/
def BACKUP_LOCATIONS : List (String × String) :=
  [("/home/siskourso/Downloads/", "gdrive:/Backups/-Orion-/Downloads/"),
   ("/home/siskourso/Working/", "gdrive:/Backups/-Orion-/Working/"),
   (HOME_DIR, "gdrive:/Backups/-Orion-/Home/")]

/-- ARGS list of the script: the initial value of the module-global rclone
argument list. -/
def ARGS : List String :=
  ["--transfers=10",
   "--progress",
   "--verbose",
   "--exclude=*/*.log",
   "--drive-chunk-size=64M"]

/-- HOME_ARGS list of the script: extra rclone arguments for the home pair. -/
def HOME_ARGS : List String :=
  ["--exclude=.*/",
   "--exclude=.*",
   "--exclude=*/*.log",
   "--exclude=Downloads/",
   "--exclude=Working/",
   "--exclude=Templates/",
   "--exclude=Public/",
   "--exclude=go/",
   "--exclude=Desktop/",
   "--exclude=gPodder/",
   "--exclude=snap/",
   "--exclude=Documents/test.pcapng"]

/-- CONSOLE_OUTPUT constant of the script. -/
def CONSOLE_OUTPUT : Bool := true

/-- Identity of the RotatingFileHandler created by setup_logging. -/
def fileHandlerId : Nat := 0

/-- Identity of the StreamHandler (console_logging) created by setup_logging. -/
def consoleHandlerId : Nat := 1

/-- State of the RotatingFileHandler: whether its stream has been opened.
CPython FileHandler.__init__ with delay=True sets self.stream = None and
performs no filesystem operation; with delay=False it opens the file at
construction time, which raises OSError when the path is not writable. -/
structure RotatingFileHandlerState where
  streamOpen : Bool
deriving DecidableEq, Repr

/-- RotatingFileHandler construction.  The pathWritable flag models the
filesystem; the String error models the OSError raised by open(). -/
def rotatingFileHandlerInit (delay : Bool) (pathWritable : Bool) :
    Except String RotatingFileHandlerState :=
  if delay then Except.ok ⟨false⟩
  else if pathWritable then Except.ok ⟨true⟩
  else Except.error "OSError: log file path not writable"

/-- The handler list of the Logger object (logging.getLogger starts with an
empty list; handlers are identified by fileHandlerId / consoleHandlerId). -/
structure LoggerState where
  handlers : List Nat
deriving DecidableEq, Repr

/-- CPython Logger.addHandler: appends the handler only if it is not already
in the list (no duplicates from double-attachment). -/
def addHandler (lg : LoggerState) (h : Nat) : LoggerState :=
  if h ∈ lg.handlers then lg else ⟨lg.handlers ++ [h]⟩

/-- CPython Logger.removeHandler: removes the handler if present (first
occurrence), otherwise leaves the list unchanged. -/
def removeHandler (lg : LoggerState) (h : Nat) : LoggerState :=
  if h ∈ lg.handlers then ⟨lg.handlers.erase h⟩ else lg

/-- The handler list built by setup_logging: getLogger("rclone_backup")
followed by addHandler(log_handler) and addHandler(console_logging). -/
def setup_logging_logger : LoggerState :=
  addHandler (addHandler ⟨[]⟩ fileHandlerId) consoleHandlerId

/-- setup_logging of the script: constructs the RotatingFileHandler with
delay=True (as in the source), the console StreamHandler, and attaches both
to the logger.  An OSError from handler construction would propagate
(nothing catches it), hence the Except return. -/
def setup_logging (pathWritable : Bool) : Except String LoggerState :=
  match rotatingFileHandlerInit true pathWritable with
  | Except.error e => Except.error e
  | Except.ok _ => Except.ok setup_logging_logger

/-- console_output of the script: addHandler/removeHandler on the module
console handler plus one info notice of the change.  The returned record is
the one logger.info call the function performs. -/
def console_output (enabled : Bool) (lg : LoggerState) : LoggerState × LogRecord :=
  if enabled then (addHandler lg consoleHandlerId, ⟨LogLevel.info, "Console logging enabled"⟩)
  else (removeHandler lg consoleHandlerId, ⟨LogLevel.info, "Console logging disabled"⟩)

/-- Logger state after module import: setup_logging attaches both handlers,
then the module-level call console_output(CONSOLE_OUTPUT) runs. -/
def moduleInitLogger : LoggerState :=
  (console_output CONSOLE_OUTPUT setup_logging_logger).1

/-- A sequence of console_output calls applied in order to a logger state. -/
def applyToggles (lg : LoggerState) : List Bool → LoggerState
  | [] => lg
  | b :: bs => applyToggles (console_output b lg).1 bs

/-- Number of copies of one emitted record that reach handler h: a record is
handed once to each entry of the handler list (CPython Logger.callHandlers). -/
def emitCopies (lg : LoggerState) (h : Nat) : Nat :=
  lg.handlers.count h

/-- Outcome of one attempt to launch and run the child process: either Popen
succeeds and the child yields its stdout lines, stderr lines and an exit
status from wait; or Popen raises an exception with the given text.  Exit
statuses are modelled as Nat (0..255); signal deaths, which CPython reports
as negative returncodes, are outside the model. -/
inductive ProcResult
  | launched (stdoutLines stderrLines : List String) (returnCode : Nat)
  | launchError (excText : String)
deriving DecidableEq, Repr

/-- A single quote character, for rendering Python repr of strings. -/
def squote : String := String.mk [Char.ofNat 39]

/-- Python str() of a list of strings: elements rendered with repr.  Assumes
the elements contain no quote or backslash characters (true of all the
configured rclone flags), so repr is just single-quoting. -/
def pyListStr (xs : List String) : String :=
  "[" ++ String.intercalate ", " (xs.map (fun s => squote ++ s ++ squote)) ++ "]"

/-- Python str() of subprocess.CalledProcessError(returncode, cmd) for a
non-negative returncode. -/
def calledProcessErrorStr (returncode : Nat) (cmd : List String) : String :=
  "Command " ++ squote ++ pyListStr cmd ++ squote ++
    " returned non-zero exit status " ++ toString returncode ++ "."

/-- The exceptions that can be raised inside the try block of rclone_sync:
subprocess.CalledProcessError (raised by the script itself on a non-zero
exit status) or any other exception from the process launch. -/
inductive PyExc
  | calledProcessError (returncode : Nat) (cmd : List String)
  | other (text : String)
deriving DecidableEq, Repr

/-- The try block of rclone_sync, after the command has been logged: Popen,
the two sequential stream-draining loops (each stdout line logged at debug
level after .strip(), then each stderr line likewise), wait, and the raise
on a non-zero exit status.  Returns the records logged inside the block and
the exception escaping it, if any. -/
def rclone_sync_try (source destination : String) (command : List String)
    (res : ProcResult) : List LogRecord × Option PyExc :=
  match res with
  | ProcResult.launchError txt => ([], some (PyExc.other txt))
  | ProcResult.launched outs errs rc =>
    let streamLogs : List LogRecord :=
      outs.map (fun l => ⟨LogLevel.debug, l.trim⟩) ++
      errs.map (fun l => ⟨LogLevel.debug, l.trim⟩)
    if rc ≠ 0 then (streamLogs, some (PyExc.calledProcessError rc command))
    else (streamLogs ++ [⟨LogLevel.info, "Sync completed for " ++ source ++ " to " ++ destination⟩], none)

/-- The command list built by rclone_sync: ["rclone", "sync", source,
destination], extended by args when args is not None. -/
def buildCommand (source destination : String) (args : Option (List String)) : List String :=
  ["rclone", "sync", source, destination] ++
    (match args with
     | some a => a
     | none => [])

/-- The records logged by the except clauses of rclone_sync: the
CalledProcessError clause logs the error plus the (None) stdout/stderr
attributes of the exception object; the catch-all Exception clause logs
the exception text.  Total on PyExc: every exception is caught. -/
def exceptClauses (source destination : String) : PyExc → List LogRecord
  | PyExc.calledProcessError rc cmd =>
    [⟨LogLevel.error, "Error syncing " ++ source ++ " to " ++ destination ++ ": "
        ++ calledProcessErrorStr rc cmd⟩,
     ⟨LogLevel.error, "stdout: None"⟩,
     ⟨LogLevel.error, "stderr: None"⟩]
  | PyExc.other txt => [⟨LogLevel.error, "An error occurred: " ++ txt⟩]

/-- rclone_sync of the script, as the sequence of log records one invocation
emits.  The function always returns normally: the try block is followed by
except clauses total on PyExc, so no exception propagates to the caller. -/
def rclone_sync (source destination : String) (args : Option (List String))
    (res : ProcResult) : List LogRecord :=
  let command := buildCommand source destination args
  let headerRec : LogRecord := ⟨LogLevel.info, "Running command: " ++ String.intercalate " " command⟩
  match rclone_sync_try source destination command res with
  | (logs, none) => headerRec :: logs
  | (logs, some e) => headerRec :: logs ++ exceptClauses source destination e

/-- State threaded through the for-loop of main: the module-global ARGS list
(mutated in place by ARGS.extend), the log so far, and the trace of
orchestrator invocations (source, destination, args passed). -/
structure RunState where
  args : List String
  log : List LogRecord
  invocations : List (String × String × List String)
deriving Repr

/-- One iteration of the for-loop of main: extend ARGS in place when the
source is the home directory, log the Syncing notice, then call
rclone_sync(source, destination, args=ARGS). -/
def mainStep (env : String → String → ProcResult) (st : RunState)
    (p : String × String) : RunState :=
  let newArgs := if p.1 = HOME_DIR then st.args ++ HOME_ARGS else st.args
  { args := newArgs,
    log := st.log ++ ⟨LogLevel.info, "Syncing " ++ p.1 ++ " to " ++ p.2⟩ ::
      rclone_sync p.1 p.2 (some newArgs) (env p.1 p.2),
    invocations := st.invocations ++ [(p.1, p.2, newArgs)] }

/-- The for-loop of main over the configured pairs. -/
def mainLoop (env : String → String → ProcResult) :
    List (String × String) → RunState → RunState
  | [], st => st
  | p :: ps, st => mainLoop env ps (mainStep env st p)

/-- The driver applied to an arbitrary pair list and an initial value of the
global args list (the spec calls this run_backup). -/
def runBackup (env : String → String → ProcResult) (pairs : List (String × String))
    (args0 : List String) : RunState :=
  mainLoop env pairs ⟨args0, [], []⟩

/-- Projection of an invocation-trace entry to its (source, destination)
pair. -/
def invPair (t : String × String × List String) : String × String :=
  (t.1, t.2.1)

/-- main of the script: iterates BACKUP_LOCATIONS, then logs the elapsed
time.  globalArgs is the current value of the module-global ARGS when main
is called; wall-clock time is not modelled, so the formatted elapsed-minutes
text is a parameter.  Python main returns None: the only outcome is the
final RunState (log, invocation trace, and the mutated global ARGS in the
args field). -/
def main (env : String → String → ProcResult) (elapsed : String)
    (globalArgs : List String) : RunState :=
  let st := runBackup env BACKUP_LOCATIONS globalArgs
  { st with log := st.log ++ [⟨LogLevel.info, "Backup process completed in " ++ elapsed ++ " minutes"⟩] }

/-- Exit status of the interpreter for one script run.  A Python process
exits 0 when the module body completes without an uncaught exception and
without sys.exit.  Every exception raised inside rclone_sync is consumed by
its except clauses (exceptClauses is total on PyExc and rclone_sync returns
a plain record list), and neither main nor the module body contains a raise
or a sys.exit call, so the interpreter reaches the end of the module for
every environment. -/
def scriptExitCode (env : String → String → ProcResult) (elapsed : String) : Nat :=
  let _ := main env elapsed ARGS
  0

/-! ### Helper lemmas -/

/-- The for-loop of main visits every pair exactly once in order: its
invocation trace, projected to (source, destination), extends the starting
trace by exactly the processed pairs, for every environment of child-process
outcomes. -/
theorem mainLoop_invocations (env : String → String → ProcResult)
    (ps : List (String × String)) : ∀ st : RunState,
    ((mainLoop env ps st).invocations).map invPair = st.invocations.map invPair ++ ps := by
  induction ps with
  | nil => intro st; simp [mainLoop]
  | cons p ps ih =>
    intro st
    rw [mainLoop, ih]
    simp [mainStep, invPair]

/-- Two formatted messages with distinct leading literals are distinct
strings: a Sync completed message never coincides with a Running command
message. -/
theorem sync_completed_ne_running_command (s d v : String) :
    "Sync completed for " ++ s ++ " to " ++ d ≠ "Running command: " ++ v := by
  intro h
  have h2 : ("Sync completed for " ++ s ++ " to " ++ d).data.head? =
      ("Running command: " ++ v).data.head? := by rw [h]
  simp only [String.data_append, List.append_assoc] at h2
  simp only [List.cons_append, List.head?_cons] at h2
  exact absurd (Option.some.inj h2) (by decide)

/-- addHandler preserves a duplicate-free handler list. -/
theorem addHandler_nodup {lg : LoggerState} {h : Nat} (hn : lg.handlers.Nodup) :
    (addHandler lg h).handlers.Nodup := by
  unfold addHandler
  split
  · exact hn
  · next hmem =>
    show (lg.handlers ++ [h]).Nodup
    exact List.nodup_append.2 ⟨hn, List.nodup_singleton h, by simpa using hmem⟩

/-- removeHandler preserves a duplicate-free handler list. -/
theorem removeHandler_nodup {lg : LoggerState} {h : Nat} (hn : lg.handlers.Nodup) :
    (removeHandler lg h).handlers.Nodup := by
  unfold removeHandler
  split
  · exact List.Nodup.sublist (List.erase_sublist _ _) hn
  · exact hn

/-- A console toggle preserves a duplicate-free handler list. -/
theorem toggle_nodup (b : Bool) {lg : LoggerState} (hn : lg.handlers.Nodup) :
    ((console_output b lg).1).handlers.Nodup := by
  cases b
  · exact removeHandler_nodup hn
  · exact addHandler_nodup hn

/-- Any sequence of console toggles preserves a duplicate-free handler
list. -/
theorem applyToggles_nodup : ∀ (bs : List Bool) (lg : LoggerState),
    lg.handlers.Nodup → (applyToggles lg bs).handlers.Nodup
  | [], _, hn => hn
  | b :: bs, _, hn => applyToggles_nodup bs _ (toggle_nodup b hn)

/-- Toggle sequences compose by concatenation. -/
theorem applyToggles_append (cs : List Bool) : ∀ (bs : List Bool) (lg : LoggerState),
    applyToggles lg (bs ++ cs) = applyToggles (applyToggles lg bs) cs
  | [], _ => rfl
  | b :: bs, lg => applyToggles_append cs bs ((console_output b lg).1)

/-- After addHandler the handler is in the list. -/
theorem mem_addHandler (lg : LoggerState) (h : Nat) : h ∈ (addHandler lg h).handlers := by
  unfold addHandler
  split
  · assumption
  · simp

/-- An enabling toggle on a duplicate-free logger leaves exactly one console
handler attached. -/
theorem toggle_true_console_once {lg : LoggerState} (hn : lg.handlers.Nodup) :
    ((console_output true lg).1).handlers.count consoleHandlerId = 1 :=
  List.count_eq_one_of_mem (addHandler_nodup hn) (mem_addHandler lg consoleHandlerId)

/-! ### Claim theorems -/

/-- C1: when the current pair equals the home marker, HOME_ARGS is appended
to the shared args list in place, so in a run over pairs [A, HOME, B] the
pair B processed after the home pair is also invoked with the extended list
args0 ++ HOME_ARGS (as is the home pair itself), while A before it gets the
unextended args0. -/
theorem home_mutation_extends_later_invocations (a da dh b db : String)
    (args0 : List String) (env : String → String → ProcResult)
    (ha : a ≠ HOME_DIR) (hb : b ≠ HOME_DIR) :
    (runBackup env [(a, da), (HOME_DIR, dh), (b, db)] args0).invocations =
      [(a, da, args0), (HOME_DIR, dh, args0 ++ HOME_ARGS), (b, db, args0 ++ HOME_ARGS)] := by
  simp [runBackup, mainLoop, mainStep, ha, hb]

/-- C1 witness: the home-mutation theorem instantiated at two concrete
non-home pairs around the home pair, starting from the configured ARGS. -/
theorem home_mutation_extends_later_invocations_witness :
    "/a/" ≠ HOME_DIR ∧ "/b/" ≠ HOME_DIR ∧
    (runBackup (fun _ _ => ProcResult.launched [] [] 0)
        [("/a/", "d1"), (HOME_DIR, "d2"), ("/b/", "d3")] ARGS).invocations =
      [("/a/", "d1", ARGS), (HOME_DIR, "d2", ARGS ++ HOME_ARGS),
       ("/b/", "d3", ARGS ++ HOME_ARGS)] :=
  ⟨by decide, by decide,
    home_mutation_extends_later_invocations "/a/" "d1" "d2" "/b/" "d3" ARGS
      (fun _ _ => ProcResult.launched [] [] 0) (by decide) (by decide)⟩

/-- C2 counterexample: with the log file path not writable, setup_logging
still returns the logger normally, because the RotatingFileHandler is
constructed with delay=True and so initialization opens no file; it does
not fail with a filesystem error and nothing aborts before the syncs. -/
theorem setup_logging_unwritable_still_ok :
    setup_logging false = Except.ok setup_logging_logger := rfl

/-- C2 amended: whether or not the configured log file path is writable,
setup_logging succeeds and returns the same logger, because the rotating
file handler is constructed with delay=True and so initialization performs
no file open that could raise a filesystem error; an unwritable path would
surface only at the first emit, after sync work has started. -/
theorem setup_logging_lazy_open_never_fails (w : Bool) :
    setup_logging w = Except.ok setup_logging_logger ∧
    rotatingFileHandlerInit true w = Except.ok ⟨false⟩ := by
  cases w <;> exact ⟨rfl, rfl⟩

/-- C3: for every configured pair sequence and every environment of
child-process outcomes (including non-zero exits and launch exceptions),
the driver invokes the sync orchestrator exactly once per pair in
configuration order: the invocation trace projected to (source,
destination) is exactly the pair list. -/
theorem driver_invokes_orchestrator_once_per_pair
    (env : String → String → ProcResult) (pairs : List (String × String))
    (args0 : List String) :
    ((runBackup env pairs args0).invocations).map invPair = pairs := by
  rw [runBackup, mainLoop_invocations]
  simp

/-- C4: whenever the child process of an orchestrator invocation exits with
code 0, the records of that invocation contain the info-level record
Sync completed for source to destination. -/
theorem exit_zero_logs_sync_completed (s d : String) (args : Option (List String))
    (outs errs : List String) :
    (⟨LogLevel.info, "Sync completed for " ++ s ++ " to " ++ d⟩ : LogRecord) ∈
      rclone_sync s d args (ProcResult.launched outs errs 0) := by
  simp [rclone_sync, rclone_sync_try]

/-- C5: whenever the child process exits with a non-zero code, the
invocation logs an error-level record citing the source, the destination
and the exit status (via the CalledProcessError text), logs no
Sync completed record, and the driver still reaches every configured pair
for any environment (the orchestrator returns normally). -/
theorem nonzero_exit_logs_error_and_run_continues (s d : String)
    (args : Option (List String)) (outs errs : List String) (rc : Nat)
    (pairs : List (String × String)) (args0 : List String)
    (env : String → String → ProcResult) (h : rc ≠ 0) :
    ((⟨LogLevel.error, "Error syncing " ++ s ++ " to " ++ d ++ ": " ++
        calledProcessErrorStr rc (buildCommand s d args)⟩ : LogRecord) ∈
      rclone_sync s d args (ProcResult.launched outs errs rc)) ∧
    ((⟨LogLevel.info, "Sync completed for " ++ s ++ " to " ++ d⟩ : LogRecord) ∉
      rclone_sync s d args (ProcResult.launched outs errs rc)) ∧
    ((runBackup env pairs args0).invocations).map invPair = pairs := by
  refine ⟨?_, ?_, ?_⟩
  · simp [rclone_sync, rclone_sync_try, exceptClauses, h]
  · simp [rclone_sync, rclone_sync_try, exceptClauses, h,
      sync_completed_ne_running_command]
  · rw [runBackup, mainLoop_invocations]
    simp

/-- C5 witness: the non-zero-exit theorem instantiated at exit status 1 with
concrete source, destination, streams and a one-pair run. -/
theorem nonzero_exit_logs_error_and_run_continues_witness :
    (1 : Nat) ≠ 0 ∧
    (((⟨LogLevel.error, "Error syncing " ++ "src" ++ " to " ++ "dst" ++ ": " ++
        calledProcessErrorStr 1 (buildCommand "src" "dst" none)⟩ : LogRecord) ∈
      rclone_sync "src" "dst" none (ProcResult.launched [] [] 1)) ∧
    ((⟨LogLevel.info, "Sync completed for " ++ "src" ++ " to " ++ "dst"⟩ : LogRecord) ∉
      rclone_sync "src" "dst" none (ProcResult.launched [] [] 1)) ∧
    ((runBackup (fun _ _ => ProcResult.launched [] [] 1) [("p", "q")] ARGS).invocations).map
        invPair = [("p", "q")]) :=
  ⟨by decide,
    nonzero_exit_logs_error_and_run_continues "src" "dst" none [] [] 1 [("p", "q")] ARGS
      (fun _ _ => ProcResult.launched [] [] 1) (by decide)⟩

/-- C6: an exception raised while launching the child process is caught
inside the orchestrator: the invocation returns normally with exactly the
command header and one error-level record carrying the exception text, and
a driver run in which every launch raises still attempts every pair. -/
theorem launch_exception_caught_and_logged (s d : String)
    (args : Option (List String)) (txt : String)
    (pairs : List (String × String)) (args0 : List String) :
    rclone_sync s d args (ProcResult.launchError txt) =
      [⟨LogLevel.info, "Running command: " ++
          String.intercalate " " (buildCommand s d args)⟩,
       ⟨LogLevel.error, "An error occurred: " ++ txt⟩] ∧
    ((runBackup (fun _ _ => ProcResult.launchError txt) pairs args0).invocations).map
        invPair = pairs := by
  refine ⟨?_, ?_⟩
  · simp [rclone_sync, rclone_sync_try, exceptClauses]
  · rw [runBackup, mainLoop_invocations]
    simp

/-- C7: within one orchestrator invocation the stdout lines are all logged
(at debug level) before any stderr line: the record list is the command
header, then the stdout debug records in order, then the stderr debug
records in order, then a tail containing no debug-level record at all. -/
theorem stdout_records_precede_stderr_records (s d : String)
    (args : Option (List String)) (outs errs : List String) (rc : Nat) :
    ∃ tail : List LogRecord,
      rclone_sync s d args (ProcResult.launched outs errs rc) =
        ⟨LogLevel.info, "Running command: " ++
            String.intercalate " " (buildCommand s d args)⟩ ::
          (outs.map (fun l => ⟨LogLevel.debug, l.trim⟩) ++
           errs.map (fun l => ⟨LogLevel.debug, l.trim⟩) ++ tail) ∧
      ∀ r ∈ tail, r.level ≠ LogLevel.debug := by
  by_cases h : rc = 0
  · subst h
    refine ⟨[⟨LogLevel.info, "Sync completed for " ++ s ++ " to " ++ d⟩], ?_, ?_⟩
    · simp [rclone_sync, rclone_sync_try]
    · intro r hr
      simp at hr
      subst hr
      simp
  · refine ⟨exceptClauses s d (PyExc.calledProcessError rc (buildCommand s d args)), ?_, ?_⟩
    · simp [rclone_sync, rclone_sync_try, h]
    · intro r hr
      simp [exceptClauses] at hr
      rcases hr with h1 | h1 | h1 <;> (subst h1; simp)

/-- C8: for every environment of child-process outcomes and every elapsed
time, the script exits with status 0 (no sync failure sets a non-zero exit
code and main returns no aggregate result), and main completes only after
attempting every configured pair in order. -/
theorem script_exits_zero_after_all_pairs (env : String → String → ProcResult)
    (elapsed : String) :
    scriptExitCode env elapsed = 0 ∧
    ((main env elapsed ARGS).invocations).map invPair = BACKUP_LOCATIONS := by
  refine ⟨rfl, ?_⟩
  show ((runBackup env BACKUP_LOCATIONS ARGS).invocations).map invPair = BACKUP_LOCATIONS
  rw [runBackup, mainLoop_invocations]
  simp

/-- C9: any sequence of console_output calls ending in an enabling call
leaves the console handler attached exactly once (no duplicates from
double-attachment), so one emitted record is mirrored to the console
exactly once, and every toggle call logs exactly one info-level notice of
the change. -/
theorem console_toggle_idempotent (bs : List Bool) :
    (applyToggles moduleInitLogger (bs ++ [true])).handlers.count consoleHandlerId = 1 ∧
    emitCopies (applyToggles moduleInitLogger (bs ++ [true])) consoleHandlerId = 1 ∧
    ∀ (b : Bool) (lg : LoggerState), ((console_output b lg).2).level = LogLevel.info := by
  have hn : (applyToggles moduleInitLogger bs).handlers.Nodup :=
    applyToggles_nodup bs moduleInitLogger (by decide)
  have hc : (applyToggles moduleInitLogger (bs ++ [true])).handlers.count consoleHandlerId = 1 := by
    rw [applyToggles_append]
    exact toggle_true_console_once hn
  refine ⟨hc, hc, ?_⟩
  intro b lg
  cases b <;> rfl

/-- C10: one run of main over the configured locations leaves the module
global ARGS permanently extended with HOME_ARGS (never reverted), so a
second call to main passes the home exclusion flags to every pair from its
first iteration and appends HOME_ARGS a second time at the home pair. -/
theorem main_mutates_global_args_across_runs
    (env env2 : String → String → ProcResult) (e1 e2 : String) :
    (main env e1 ARGS).args = ARGS ++ HOME_ARGS ∧
    (main env2 e2 (main env e1 ARGS).args).invocations =
      [("/home/siskourso/Downloads/", "gdrive:/Backups/-Orion-/Downloads/",
          ARGS ++ HOME_ARGS),
       ("/home/siskourso/Working/", "gdrive:/Backups/-Orion-/Working/",
          ARGS ++ HOME_ARGS),
       (HOME_DIR, "gdrive:/Backups/-Orion-/Home/",
          ARGS ++ HOME_ARGS ++ HOME_ARGS)] := by
  have hargs : (main env e1 ARGS).args = ARGS ++ HOME_ARGS := by
    simp [main, runBackup, mainLoop, mainStep, BACKUP_LOCATIONS, HOME_DIR]
  refine ⟨hargs, ?_⟩
  rw [hargs]
  simp [main, runBackup, mainLoop, mainStep, BACKUP_LOCATIONS, HOME_DIR]

end PyBackup
